import Mathlib

/-!
# Verification of the myrandr xrandr-output parser and TUI navigation state machine

This development shallowly embeds the C sources of the myrandr repository:

* xrandr_parser.c (`parse_xrandr_output`, `free_displays`) — the text parser
  that turns the output of the external xrandr tool into a list of `Display`
  records, each owning `Mode` records which own `RefreshRate` records;
* tui.c (the positioning variant) — the command builders
  (`apply_xrandr_settings`, `toggle_display_power`, `apply_position_settings`),
  the projection built by `setup_display_data`, and the key-driven navigation
  state machine of `main`.

C machine integers are modelled as `Int` (all values involved stay far from
the 32-bit boundaries), C `double` as `Rat`, and C strings as `List Char`.
The parser is modelled at the granularity of the actual I/O loop: `fgets`
into a 256-byte buffer, so a logical line longer than 255 bytes is delivered
as several chunks, exactly as in the C code.
-/

set_option maxRecDepth 4000

namespace Myrandr

/-- C `isspace` on the characters that can occur in xrandr output. -/
def isspace (c : Char) : Bool :=
  c = ' ' || c = '\t' || c = '\n' || c = '\r' || c = '\x0b' || c = '\x0c'

def dropWs (l : List Char) : List Char := l.dropWhile isspace

/-- `strstr`-style substring test: does `pat` occur inside `l`? -/
def hasSub (pat l : List Char) : Bool := l.tails.any (fun t => pat.isPrefixOf t)

/-- `sscanf` `%s`: skip whitespace, read a non-empty run of non-whitespace. -/
def scanToken (l : List Char) : Option (List Char × List Char) :=
  let l1 := dropWs l
  let t := l1.takeWhile (fun c => !(isspace c))
  if t = [] then none else some (t, l1.drop t.length)

/-- `sscanf` literal directive: the literal must match exactly (no ws skip). -/
def litP (pat l : List Char) : Option (List Char) :=
  if pat.isPrefixOf l then some (l.drop pat.length) else none

def digitsToNat (ds : List Char) : Nat :=
  ds.foldl (fun a c => a * 10 + (c.toNat - '0'.toNat)) 0

/-- `sscanf` `%d`: skip whitespace, optional sign, a non-empty digit run. -/
def scanInt (l : List Char) : Option (Int × List Char) :=
  let l1 := dropWs l
  let (neg, l2) : Bool × List Char :=
    match l1 with
    | '+' :: r => (false, r)
    | '-' :: r => (true, r)
    | _ => (false, l1)
  let ds := l2.takeWhile Char.isDigit
  if ds = [] then none
  else
    let v : Int := (digitsToNat ds : Int)
    some (if neg then -v else v, l2.drop ds.length)

/-- The value `sign * mantissaDigits * 10 ^ (exponent - fractionDigits)`
of a decimal literal, as a rational (built with `mkRat` so that it is
kernel-computable). -/
def decValue (neg : Bool) (mant : Nat) (expTen : Int) : Rat :=
  let m : Int := if neg then -(mant : Int) else (mant : Int)
  if 0 ≤ expTen then mkRat (m * (10 : Int) ^ expTen.toNat) 1
  else mkRat m ((10 : Nat) ^ (-expTen).toNat)

/-- C `strtod`: skip whitespace, optional sign, digits with an optional
decimal point and an optional exponent; `none` when no conversion is
performed (then the C `endptr == ptr` test fires).  Hexadecimal, infinity
and NaN forms are not modelled: xrandr rate fields are plain decimals. -/
def strtod (l : List Char) : Option (Rat × List Char) :=
  let l1 := dropWs l
  let (neg, l2) : Bool × List Char :=
    match l1 with
    | '+' :: r => (false, r)
    | '-' :: r => (true, r)
    | _ => (false, l1)
  let ip := l2.takeWhile Char.isDigit
  let l3 := l2.drop ip.length
  let (fp, l4) : List Char × List Char :=
    match l3 with
    | '.' :: r => (r.takeWhile Char.isDigit, r.drop (r.takeWhile Char.isDigit).length)
    | _ => ([], l3)
  if ip.length + fp.length = 0 then none
  else
    let (expv, l5) : Int × List Char :=
      match l4 with
      | e :: r =>
        if e = 'e' || e = 'E' then
          let (eneg, r2) : Bool × List Char :=
            match r with
            | '+' :: rr => (false, rr)
            | '-' :: rr => (true, rr)
            | _ => (false, r)
          let ed := r2.takeWhile Char.isDigit
          if ed = [] then (0, l4)
          else ((if eneg then -(digitsToNat ed : Int) else (digitsToNat ed : Int)),
                r2.drop ed.length)
        else (0, l4)
      | [] => (0, l4)
    some (decValue neg (digitsToNat (ip ++ fp)) (expv - (fp.length : Int)), l5)

/-- One refresh-rate entry (struct RefreshRate of xrandr_parser.h). -/
structure RefreshRate where
  rate : Rat
  is_current : Bool
  is_preferred : Bool
deriving DecidableEq

/-- One resolution (struct Mode of xrandr_parser.h). -/
structure Mode where
  width : Int
  height : Int
  refresh_rates : List RefreshRate
deriving DecidableEq

/-- One display output (struct Display of xrandr_parser.h).  `is_active` is
the extra field read by the positioning TUI variant; its header is not in
the sources.  Modelled from the spec: `isActive` denotes whether the display
currently has an assigned resolution (width > 0). -/
structure Display where
  name : List Char
  connected : Bool
  is_primary : Bool
  width : Int
  height : Int
  x_offset : Int
  y_offset : Int
  is_active : Bool
  modes : List Mode
deriving DecidableEq

/-- The all-zero Display produced by `memset(current_display_ptr, 0, ...)`. -/
def zeroDisplay : Display :=
  { name := [], connected := false, is_primary := false,
    width := 0, height := 0, x_offset := 0, y_offset := 0,
    is_active := false, modes := [] }

/-- Marker scan after a parsed rate: the inner `while (1)` loop that skips
whitespace and consumes `*` / `+` markers, setting the flags of the rate
just parsed; stops at the first character that is neither. -/
def markerLoop : List Char → Bool → Bool → Bool × Bool × List Char
  | [], cur, pref => (cur, pref, [])
  | c :: rest, cur, pref =>
    if isspace c then markerLoop rest cur pref
    else if c = '*' then markerLoop rest true pref
    else if c = '+' then markerLoop rest cur true
    else (cur, pref, c :: rest)

/-- The rate-scanning `while (1)` loop: `strtod`, then the marker scan,
until `strtod` makes no conversion.  `fuel` only bounds the recursion;
`scanRates` supplies enough for the loop to run to completion, since every
successful `strtod` consumes at least one character. -/
def rateLoop : Nat → List Char → List RefreshRate → List RefreshRate
  | 0, _, acc => acc
  | fuel + 1, l, acc =>
    match strtod l with
    | none => acc
    | some (v, r1) =>
      let (cur, pref, r2) := markerLoop r1 false false
      rateLoop fuel r2 (acc ++ [{ rate := v, is_current := cur, is_preferred := pref }])

def scanRates (l : List Char) : List RefreshRate := rateLoop (l.length + 1) l []

/-- `sscanf(line, " %dx%d %n", &w, &h, &n) == 2`: on success returns the two
ints and the tail of the line from position `n` (whitespace after the
resolution token already skipped). -/
def parseModeHeader (l : List Char) : Option (Int × Int × List Char) :=
  match scanInt l with
  | none => none
  | some (w, r1) =>
    match r1 with
    | 'x' :: r2 =>
      match scanInt r2 with
      | none => none
      | some (h, r3) => some (w, h, dropWs r3)
    | _ => none

/-- The connected-header scan: the primary test followed by
`sscanf(line, "%s connected [primary] %dx%d+%d+%d", ...)`, keeping the
partial assignments made before the first failing directive (the struct was
zeroed beforehand, so unassigned fields stay 0). -/
def headerScan (line : List Char) : Display :=
  let primary := hasSub (" primary".data) line
  let d0 := { zeroDisplay with connected := true, is_primary := primary }
  let d :=
    match scanToken line with
    | none => d0
    | some (tok, r1) =>
      let d1 := { d0 with name := tok }
      match litP ("connected".data) (dropWs r1) with
      | none => d1
      | some r2 =>
        let r2w : Option (List Char) :=
          if primary then litP ("primary".data) (dropWs r2) else some r2
        match r2w with
        | none => d1
        | some r3 =>
          match scanInt r3 with
          | none => d1
          | some (w, r4) =>
            let d2 := { d1 with width := w }
            match litP (['x']) r4 with
            | none => d2
            | some r5 =>
              match scanInt r5 with
              | none => d2
              | some (h, r6) =>
                let d3 := { d2 with height := h }
                match litP (['+']) r6 with
                | none => d3
                | some r7 =>
                  match scanInt r7 with
                  | none => d3
                  | some (x, r8) =>
                    let d4 := { d3 with x_offset := x }
                    match litP (['+']) r8 with
                    | none => d4
                    | some r9 =>
                      match scanInt r9 with
                      | none => d4
                      | some (y, _) => { d4 with y_offset := y }
  { d with is_active := decide (d.width > 0) }

/-- The branch for a header the code classifies as disconnected:
`connected = 0; sscanf(line, "%s disconnected", name); continue;`.
It mirrors the source even though its guard is the same `strstr` test as
the outer one, so the branch can never be taken. -/
def disconnectedScan (line : List Char) : Display :=
  match scanToken line with
  | none => zeroDisplay
  | some (tok, _) => { zeroDisplay with name := tok }

/-- Parser loop state: the displays already in the array, and the one
`current_display_ptr` points at (always the last array slot when open). -/
structure ParseSt where
  done : List Display
  current : Option Display
deriving DecidableEq

def closeCurrent (st : ParseSt) : List Display :=
  st.done ++ (match st.current with | some d => [d] | none => [])

def firstIsSpace (l : List Char) : Bool :=
  match l with
  | [] => false
  | c :: _ => isspace c

/-- One iteration of the `fgets` loop body of `parse_xrandr_output`. -/
def parseLine (st : ParseSt) (line : List Char) : ParseSt :=
  if hasSub (" connected".data) line then
    if hasSub (" connected".data) line then
      { done := closeCurrent st, current := some (headerScan line) }
    else
      { done := closeCurrent st, current := some (disconnectedScan line) }
  else
    match st.current with
    | some d =>
      if d.connected && firstIsSpace line then
        match parseModeHeader line with
        | some (w, h, rest) =>
          let m : Mode := { width := w, height := h, refresh_rates := scanRates rest }
          { st with current := some { d with modes := d.modes ++ [m] } }
        | none => st
      else { done := st.done ++ [d], current := none }
    | none => st

/-- Run the parsing loop over the buffers successively returned by `fgets`. -/
def parseChunksList (chunks : List (List Char)) : List Display :=
  closeCurrent (chunks.foldl parseLine { done := [], current := none })

/-- Split one newline-terminated line into the successive contents of the
256-byte `fgets` buffer: up to 255 characters per call, a call ending early
only at a newline.  `fuel` bounds the recursion and is supplied large
enough by `fgetsChunks`. -/
def chunksAux : Nat → List Char → List (List Char)
  | 0, l => if l = [] then [] else [l]
  | fuel + 1, l =>
    if l.length ≤ 255 then (if l = [] then [] else [l])
    else l.take 255 :: chunksAux fuel (l.drop 255)

/-- The `fgets` chunks of one logical (newline-free) line. -/
def fgetsChunks (line : List Char) : List (List Char) :=
  chunksAux (line.length + 1) (line ++ ['\n'])

def toChunks (lines : List (List Char)) : List (List Char) :=
  (lines.map fgetsChunks).flatten

/-- Parse a report given as logical lines, reading through the 256-byte
`fgets` buffer as the C code does. -/
def parseChunked (lines : List (List Char)) : List Display :=
  parseChunksList (toChunks lines)

/-- Parse the same logical lines delivered whole (a buffer large enough for
any line), the reading discipline the spec asserts. -/
def parseLogical (lines : List (List Char)) : List Display :=
  parseChunksList (lines.map (fun l => l ++ ['\n']))

/-- Whole `parse_xrandr_output`: `invokeOk = false` models `popen` failing
(the only early `return NULL`); otherwise the loop runs and the function
returns the `displays` pointer, which is `NULL` exactly when no header line
ever matched (the array was never allocated). -/
def parse_xrandr_output (invokeOk : Bool) (lines : List (List Char)) :
    Option (List Display) :=
  if invokeOk then
    let ds := parseChunked lines
    if ds = [] then none else some ds
  else none

/-! ## setup_display_data: the connected-only projection and the menu -/

/-- The first pass of `setup_display_data`: count the connected displays. -/
def connected_count (ds : List Display) : Int :=
  ds.foldl (fun c d => if d.connected then c + 1 else c) 0

/-- The second pass, as it fills `connected_displays`. -/
def connected_filter (ds : List Display) : List Display :=
  ds.foldl (fun acc d => if d.connected then acc ++ [d] else acc) []

/-- The second pass, as it fills `menu_items` (the names, in the same loop). -/
def menuNames (ds : List Display) : List (List Char) :=
  ds.foldl (fun acc d => if d.connected then acc ++ [d.name] else acc) []

/-- `menu_items` after the trailing `"Exit"` entry is written. -/
def menu_items (ds : List Display) : List (List Char) :=
  menuNames ds ++ ["Exit".data]

/-- `*num_items = *connected_count + 1`. -/
def num_items (ds : List Display) : Int := connected_count ds + 1

/-- `setup_display_data`: parse, then build the projection and menu;
returns `none` exactly when `parse_xrandr_output` returned `NULL`
(allocation failures are out of scope). -/
def setup_display_data (invokeOk : Bool) (lines : List (List Char)) :
    Option (List Display × List (List Char) × Int) :=
  match parse_xrandr_output invokeOk lines with
  | none => none
  | some ds => some (connected_filter ds, menu_items ds, num_items ds)

/-! ## Command builders -/

/-- `%.2f`: the fractional part as exactly two decimal digits. -/
def twoDigitFrac (frac : Nat) : List Char :=
  [Nat.digitChar (frac / 10), Nat.digitChar (frac % 10)]

/-- `round (q * 100)` computed on the numerator and denominator with
integer floor division, so that it is kernel-computable
(`round x = floor (x + 1/2)` and `q * 100 + 1/2 = (200 num + den)/(2 den)`).
`round100_eq` below proves the agreement. -/
def round100 (q : Rat) : Int :=
  Int.fdiv (200 * q.num + (q.den : Int)) (2 * (q.den : Int))

/-- `printf`-style `%.2f` on the Rat model of a C double: round to the
nearest hundredth and print with exactly two digits after the point. -/
def fmt2 (q : Rat) : List Char :=
  let n : Int := round100 q
  (if n < 0 then ['-'] else []) ++ (n.natAbs / 100).repr.data ++ ['.'] ++
    twoDigitFrac (n.natAbs % 100)

/-- `apply_xrandr_settings`' command string:
`snprintf(command, 256, "xrandr --output %s --mode %dx%d --rate %.2f", ...)`
(`snprintf` truncates the output to 255 characters). -/
def apply_xrandr_settings (name : List Char) (width height : Int) (rate : Rat) :
    List Char :=
  (("xrandr --output ".data ++ name ++ " --mode ".data ++ (toString width).data ++
    ['x'] ++ (toString height).data ++ " --rate ".data ++ fmt2 rate)).take 255

/-- `toggle_display_power`'s command string. -/
def toggle_display_power (d : Display) : List Char :=
  if d.is_active then
    ("xrandr --output ".data ++ d.name ++ " --off".data).take 255
  else
    ("xrandr --output ".data ++ d.name ++ " --auto".data).take 255

/-- `apply_position_settings`' command string:
`"xrandr --output %s --%s %s --auto"`. -/
def apply_position_settings (source direction target : List Char) : List Char :=
  ("xrandr --output ".data ++ source ++ " --".data ++ direction ++ [' '] ++
    target ++ " --auto".data).take 255

/-! ## Navigation state machine (tui.c, positioning variant, main loop) -/

inductive AppState where
  | monitorSelect
  | modeSelect
  | rateSelect
  | positionSelect
deriving DecidableEq

inductive PosFocus where
  | target
  | direction
deriving DecidableEq

inductive Key where
  | up
  | down
  | left
  | right
  | enter
  | tab
  | quit
  | keyO
  | keyP
  | resize
  | other
deriving DecidableEq

/-- The mutable navigation state of `main` (the UI variables), together
with the `connected_displays` projection the loop indexes into. -/
structure TuiState where
  connected_displays : List Display
  state : AppState
  monitor_highlight : Int
  monitor_scroll : Int
  mode_highlight : Int
  mode_scroll : Int
  rate_highlight : Int
  rate_scroll : Int
  pos_panel_focus : PosFocus
  pos_target_highlight : Int
  pos_direction_highlight : Int
  position_target_displays : List Display
deriving DecidableEq

/-- The state right after the first `setup_display_data` in `main`. -/
def initState (conn : List Display) : TuiState :=
  { connected_displays := conn, state := .monitorSelect,
    monitor_highlight := 0, monitor_scroll := 0,
    mode_highlight := 0, mode_scroll := 0,
    rate_highlight := 0, rate_scroll := 0,
    pos_panel_focus := .target,
    pos_target_highlight := 0, pos_direction_highlight := 0,
    position_target_displays := [] }

instance : Inhabited TuiState := ⟨initState []⟩

def position_directions : List (List Char) :=
  ["right-of".data, "left-of".data, "above".data, "below".data, "same-as".data]

def position_direction_count : Int := position_directions.length

/-- The reset block that follows every state-changing command once
`setup_display_data` on the fresh parse succeeded: the tree is replaced,
`state` returns to `MonitorSelect` and the monitor/mode/rate highlights and
scrolls are zeroed.  The position-panel highlights are left as they were;
the target list was freed. -/
def afterCommand (nd : List Display) (s : TuiState) : TuiState :=
  { s with
    connected_displays := connected_filter nd, state := .monitorSelect,
    monitor_highlight := 0, monitor_scroll := 0,
    mode_highlight := 0, mode_scroll := 0,
    rate_highlight := 0, rate_scroll := 0,
    position_target_displays := [] }

/-- The target list built by the `p` key: all connected displays except the
selected one, in order.  (When the Exit row is selected the C loop skips
nothing and overruns its `connected_count - 1` buffer; the model returns
the full list instead of that undefined behaviour — no claim depends on
this corner.) -/
def buildTargets (conn : List Display) (sel : Int) : List Display :=
  conn.enum.filterMap (fun p => if (p.1 : Int) = sel then none else some p.2)

/-- Outcome of one main-loop iteration: continue with a new state (carrying
the command string run, if any), exit cleanly (`q` or Exit), exit with an
error (re-parse after a command failed), or hit undefined behaviour (an
out-of-bounds array access in the C code). -/
inductive StepRes where
  | cont (s : TuiState) (cmd : Option (List Char))
  | exitOk
  | exitFail
  | fault
deriving DecidableEq

/-- The state of a continuing step (`default` otherwise). -/
def contStateD : StepRes → TuiState
  | .cont s _ => s
  | _ => default

/-- One iteration of the `switch (ch)` of `main`, given the terminal row
count and, for the command branches, the displays a fresh
`parse_xrandr_output` would produce (`none` when that re-parse fails). -/
def step (s : TuiState) (k : Key) (rows : Int) (rp : Option (List Display)) :
    StepRes :=
  let cc : Int := s.connected_displays.length
  let ni : Int := cc + 1
  match k with
  | .quit => .exitOk
  | .keyO =>
    if s.state = .monitorSelect ∧ s.monitor_highlight < cc then
      match s.connected_displays[s.monitor_highlight.toNat]? with
      | none => .fault
      | some d =>
        let cmd := toggle_display_power d
        match rp with
        | none => .exitFail
        | some nd => .cont (afterCommand nd s) (some cmd)
    else .cont s none
  | .keyP =>
    if s.state = .monitorSelect ∧ 1 < cc then
      .cont { s with
              state := .positionSelect,
              position_target_displays := buildTargets s.connected_displays s.monitor_highlight,
              pos_panel_focus := .target,
              pos_target_highlight := 0, pos_direction_highlight := 0 } none
    else .cont s none
  | .resize => .cont s none
  | .other => .cont s none
  | .up =>
    let mvh : Int := rows - 4
    let rvh : Int := if rows - 8 < 1 then 1 else rows - 8
    match s.state with
    | .monitorSelect =>
      let h := if s.monitor_highlight = 0 then ni - 1 else s.monitor_highlight - 1
      let sc :=
        if h < s.monitor_scroll then h
        else if h ≥ ni - 1 then (if ni > mvh then ni - mvh else 0)
        else s.monitor_scroll
      .cont { s with monitor_highlight := h, monitor_scroll := sc } none
    | .modeSelect =>
      match s.connected_displays[s.monitor_highlight.toNat]? with
      | none => .fault
      | some d =>
        if (d.modes.length : Int) > 0 then
          let n : Int := d.modes.length
          let h := if s.mode_highlight = 0 then n - 1 else s.mode_highlight - 1
          let sc :=
            if h < s.mode_scroll then h
            else if h ≥ n - 1 then (if n > rvh then n - rvh else 0)
            else s.mode_scroll
          .cont { s with mode_highlight := h, mode_scroll := sc } none
        else .cont s none
    | .positionSelect =>
      match s.pos_panel_focus with
      | .target =>
        if (s.position_target_displays.length : Int) > 0 then
          let n : Int := s.position_target_displays.length
          .cont { s with
            pos_target_highlight :=
              if s.pos_target_highlight = 0 then n - 1
              else s.pos_target_highlight - 1 } none
        else .cont s none
      | .direction =>
        .cont { s with
          pos_direction_highlight :=
            if s.pos_direction_highlight = 0 then position_direction_count - 1
            else s.pos_direction_highlight - 1 } none
    | .rateSelect =>
      match s.connected_displays[s.monitor_highlight.toNat]? with
      | none => .fault
      | some d =>
        if (d.modes.length : Int) > 0 then
          match d.modes[s.mode_highlight.toNat]? with
          | none => .fault
          | some m =>
            if (m.refresh_rates.length : Int) > 0 then
              let n : Int := m.refresh_rates.length
              let h := if s.rate_highlight = 0 then n - 1 else s.rate_highlight - 1
              let sc :=
                if h < s.rate_scroll then h
                else if h ≥ n - 1 then (if n > rvh then n - rvh else 0)
                else s.rate_scroll
              .cont { s with rate_highlight := h, rate_scroll := sc } none
            else .cont s none
        else .cont s none
  | .down =>
    let mvh : Int := rows - 4
    let rvh : Int := if rows - 8 < 1 then 1 else rows - 8
    match s.state with
    | .monitorSelect =>
      let h := (s.monitor_highlight + 1) % ni
      let sc :=
        if h ≥ s.monitor_scroll + mvh then h - mvh + 1
        else if h = 0 then 0
        else s.monitor_scroll
      .cont { s with monitor_highlight := h, monitor_scroll := sc } none
    | .modeSelect =>
      match s.connected_displays[s.monitor_highlight.toNat]? with
      | none => .fault
      | some d =>
        if (d.modes.length : Int) > 0 then
          let n : Int := d.modes.length
          let h := (s.mode_highlight + 1) % n
          let sc :=
            if h ≥ s.mode_scroll + rvh then h - rvh + 1
            else if h = 0 then 0
            else s.mode_scroll
          .cont { s with mode_highlight := h, mode_scroll := sc } none
        else .cont s none
    | .positionSelect =>
      match s.pos_panel_focus with
      | .target =>
        if (s.position_target_displays.length : Int) > 0 then
          let n : Int := s.position_target_displays.length
          .cont { s with pos_target_highlight := (s.pos_target_highlight + 1) % n } none
        else .cont s none
      | .direction =>
        .cont { s with
          pos_direction_highlight :=
            (s.pos_direction_highlight + 1) % position_direction_count } none
    | .rateSelect =>
      match s.connected_displays[s.monitor_highlight.toNat]? with
      | none => .fault
      | some d =>
        if (d.modes.length : Int) > 0 then
          match d.modes[s.mode_highlight.toNat]? with
          | none => .fault
          | some m =>
            if (m.refresh_rates.length : Int) > 0 then
              let n : Int := m.refresh_rates.length
              let h := (s.rate_highlight + 1) % n
              let sc :=
                if h ≥ s.rate_scroll + rvh then h - rvh + 1
                else if h = 0 then 0
                else s.rate_scroll
              .cont { s with rate_highlight := h, rate_scroll := sc } none
            else .cont s none
        else .cont s none
  | .tab =>
    if s.state = .positionSelect then
      .cont { s with
        pos_panel_focus :=
          match s.pos_panel_focus with
          | .target => .direction
          | .direction => .target } none
    else .cont s none
  | .right =>
    if s.state = .monitorSelect ∧ s.monitor_highlight < cc then
      .cont { s with
              state := .modeSelect,
              mode_highlight := 0, mode_scroll := 0,
              rate_highlight := 0, rate_scroll := 0 } none
    else if s.state = .modeSelect then
      match s.connected_displays[s.monitor_highlight.toNat]? with
      | none => .fault
      | some d =>
        if (d.modes.length : Int) > 0 then
          .cont { s with state := .rateSelect, rate_highlight := 0, rate_scroll := 0 } none
        else .cont s none
    else .cont s none
  | .left =>
    if s.state = .positionSelect then
      .cont { s with state := .monitorSelect, position_target_displays := [] } none
    else if s.state = .rateSelect then
      .cont { s with state := .modeSelect, rate_highlight := 0, rate_scroll := 0 } none
    else if s.state = .modeSelect then
      .cont { s with state := .monitorSelect, mode_highlight := 0, mode_scroll := 0 } none
    else .cont s none
  | .enter =>
    match s.state with
    | .monitorSelect =>
      if s.monitor_highlight = cc then .exitOk
      else
        .cont { s with
                state := .modeSelect,
                mode_highlight := 0, mode_scroll := 0,
                rate_highlight := 0, rate_scroll := 0 } none
    | .modeSelect =>
      match s.connected_displays[s.monitor_highlight.toNat]? with
      | none => .fault
      | some d =>
        if (d.modes.length : Int) > 0 then
          .cont { s with state := .rateSelect, rate_highlight := 0, rate_scroll := 0 } none
        else .cont s none
    | .positionSelect =>
      match s.connected_displays[s.monitor_highlight.toNat]?,
            s.position_target_displays[s.pos_target_highlight.toNat]?,
            position_directions[s.pos_direction_highlight.toNat]? with
      | some src, some tgt, some dir =>
        let cmd := apply_position_settings src.name dir tgt.name
        match rp with
        | none => .exitFail
        | some nd => .cont (afterCommand nd s) (some cmd)
      | _, _, _ => .fault
    | .rateSelect =>
      match s.connected_displays[s.monitor_highlight.toNat]? with
      | none => .fault
      | some d =>
        match d.modes[s.mode_highlight.toNat]? with
        | none => .fault
        | some m =>
          match m.refresh_rates[s.rate_highlight.toNat]? with
          | none => .fault
          | some r =>
            let cmd := apply_xrandr_settings d.name m.width m.height r.rate
            match rp with
            | none => .exitFail
            | some nd => .cont (afterCommand nd s) (some cmd)

/-- Length of the list the active panel navigates (`none` when the C code
would index out of bounds to reach it). -/
def activeLen (s : TuiState) : Option Int :=
  match s.state with
  | .monitorSelect => some ((s.connected_displays.length : Int) + 1)
  | .modeSelect =>
    (s.connected_displays[s.monitor_highlight.toNat]?).map
      (fun d => (d.modes.length : Int))
  | .rateSelect =>
    (s.connected_displays[s.monitor_highlight.toNat]?).bind
      (fun d => (d.modes[s.mode_highlight.toNat]?).map
        (fun m => (m.refresh_rates.length : Int)))
  | .positionSelect =>
    match s.pos_panel_focus with
    | .target => some (s.position_target_displays.length : Int)
    | .direction => some position_direction_count

/-- Selection index of the active panel. -/
def activeSel (s : TuiState) : Int :=
  match s.state with
  | .monitorSelect => s.monitor_highlight
  | .modeSelect => s.mode_highlight
  | .rateSelect => s.rate_highlight
  | .positionSelect =>
    match s.pos_panel_focus with
    | .target => s.pos_target_highlight
    | .direction => s.pos_direction_highlight

/-! ## Concrete data used by the evaluations below -/

/-- The §8 scenario report of the spec. -/
def scenarioReport : List (List Char) :=
  ["HDMI-1 connected primary 1920x1080+0+0".data,
   "   1920x1080     60.00*+  59.94".data,
   "HDMI-2 disconnected".data]

/-- The display the scenario's first header and mode line describe. -/
def scenarioHDMI1 : Display :=
  { name := "HDMI-1".data, connected := true, is_primary := true,
    width := 1920, height := 1080, x_offset := 0, y_offset := 0,
    is_active := true,
    modes := [{ width := 1920, height := 1080,
                refresh_rates :=
                  [{ rate := 60, is_current := true, is_preferred := true },
                   { rate := mkRat 5994 100, is_current := false, is_preferred := false }] }] }

/-! ## C1 -/

/-- C1: on the §8 scenario report the parser records only HDMI-1: the
header test `strstr(line, " connected")` never matches a line of the form
`<name> disconnected ...` (the character before "connected" there is 's',
not a space), so no Display at all is created for HDMI-2 and the parsed
model has exactly 1 display, not the 2 the claim states.  The branch of the
code that would record a disconnected Display is guarded by the same
`strstr` test and is therefore unreachable. -/
theorem c1_disconnected_header_dropped :
    parse_xrandr_output true scenarioReport = some [scenarioHDMI1] ∧
    (parseChunked scenarioReport).length = 1 ∧
    (parseChunked scenarioReport).all (fun d => d.connected) = true ∧
    hasSub (" connected".data) ("HDMI-2 disconnected".data) = false := by
  decide

/-! ## C2 -/

/-- C2 counterexample: a report with no header lines does not make the
parse succeed with an empty display sequence — `parse_xrandr_output`
returns `NULL` (here `none`), the same value the failure-to-invoke case
returns, and `setup_display_data` fails on it exactly as it does when the
tool cannot be launched. -/
theorem c2_empty_report_counterexample :
    parse_xrandr_output true [] = none ∧
    parse_xrandr_output true
      ["Screen 0: minimum 320 x 200, current 1920 x 1080, maximum 16384 x 16384".data]
      = none ∧
    parse_xrandr_output false [] = none ∧
    setup_display_data true [] = none ∧
    setup_display_data false [] = none := by
  decide

/-- C2 amended: the parse returns no displays (NULL) exactly when the tool
could not be invoked or the report contains no line matching the
`" connected"` header test; a caller cannot distinguish the two cases, and
`setup_display_data` fails on both alike. -/
theorem c2_parse_fails_iff (invokeOk : Bool) (lines : List (List Char)) :
    (parse_xrandr_output invokeOk lines = none ↔
      invokeOk = false ∨ parseChunked lines = []) ∧
    (setup_display_data invokeOk lines = none ↔
      parse_xrandr_output invokeOk lines = none) := by
  constructor
  · unfold parse_xrandr_output
    cases invokeOk <;> simp
  · unfold setup_display_data
    cases h : parse_xrandr_output invokeOk lines <;> simp

/-! ## C5 -/

/-- C5: the `*` and `+` markers are independent and order-insensitive
(`60.00*+` and `60.00+*` parse identically, to rate 60.00 with both flags
set), and repeating a marker is idempotent; the general marker-scan
equations hold for every continuation of the line. -/
theorem c5_marker_independence :
    scanRates ("60.00*+  59.94".data) =
      [{ rate := 60, is_current := true, is_preferred := true },
       { rate := mkRat 5994 100, is_current := false, is_preferred := false }] ∧
    scanRates ("60.00+*  59.94".data) =
      [{ rate := 60, is_current := true, is_preferred := true },
       { rate := mkRat 5994 100, is_current := false, is_preferred := false }] ∧
    parseLogical ["HDMI-1 connected".data, "   1920x1080 60.00*+".data] =
      parseLogical ["HDMI-1 connected".data, "   1920x1080 60.00+*".data] ∧
    (∀ (rest : List Char) (c p : Bool),
      markerLoop ('*' :: '+' :: rest) c p = markerLoop ('+' :: '*' :: rest) c p) ∧
    (∀ (rest : List Char) (c p : Bool),
      markerLoop ('*' :: '*' :: rest) c p = markerLoop ('*' :: rest) c p) ∧
    (∀ (rest : List Char) (c p : Bool),
      markerLoop ('+' :: '+' :: rest) c p = markerLoop ('+' :: rest) c p) := by
  refine ⟨by decide, by decide, by decide, ?_, ?_, ?_⟩ <;>
    exact fun rest c p => rfl

/-! ## C10 -/

/-- C10: a `*` or `+` marker separated from the preceding number by
whitespace — even standing alone as its own whitespace-delimited token — is
still applied to the most recently parsed rate: the marker scan skips any
whitespace before a marker. -/
theorem c10_detached_markers :
    (∀ (rest : List Char) (c p : Bool),
      markerLoop (' ' :: rest) c p = markerLoop rest c p) ∧
    (∀ (rest : List Char) (c p : Bool),
      markerLoop ('\t' :: rest) c p = markerLoop rest c p) ∧
    scanRates ("60.00  *".data) =
      [{ rate := 60, is_current := true, is_preferred := false }] ∧
    scanRates ("60.00 59.94 +".data) =
      [{ rate := 60, is_current := false, is_preferred := false },
       { rate := mkRat 5994 100, is_current := false, is_preferred := true }] ∧
    scanRates ("60.00   * +  ".data) =
      [{ rate := 60, is_current := true, is_preferred := true }] := by
  refine ⟨fun rest c p => rfl, fun rest c p => rfl, by decide, by decide, by decide⟩

/-! ## C8 -/

theorem foldl_filter_app (l : List Display) (acc : List Display) :
    l.foldl (fun a d => if d.connected then a ++ [d] else a) acc =
      acc ++ l.filter (fun d => d.connected) := by
  induction l generalizing acc with
  | nil => simp
  | cons x xs ih =>
    by_cases hx : x.connected <;> simp [List.filter_cons, hx, ih]

theorem foldl_names_app (l : List Display) (acc : List (List Char)) :
    l.foldl (fun a d => if d.connected then a ++ [d.name] else a) acc =
      acc ++ (l.filter (fun d => d.connected)).map (fun d => d.name) := by
  induction l generalizing acc with
  | nil => simp
  | cons x xs ih =>
    by_cases hx : x.connected <;> simp [List.filter_cons, hx, ih]

theorem foldl_count_app (l : List Display) (acc : Int) :
    l.foldl (fun c d => if d.connected then c + 1 else c) acc =
      acc + ((l.filter (fun d => d.connected)).length : Int) := by
  induction l generalizing acc with
  | nil => simp
  | cons x xs ih =>
    by_cases hx : x.connected
    · simp [List.filter_cons, hx, ih]
      ring
    · simp [List.filter_cons, hx, ih]

/-- C8: the connected-only projection built by `setup_display_data` is the
order-preserving filter of the parsed displays on `connected = true`, its
length is the number of connected displays, the menu is the projected names
followed by the synthetic "Exit" entry, and `num_items` is that count plus
one with "Exit" last. -/
theorem c8_connected_projection (ds : List Display) :
    connected_filter ds = ds.filter (fun d => d.connected) ∧
    (connected_filter ds).length = (ds.filter (fun d => d.connected)).length ∧
    menu_items ds =
      (ds.filter (fun d => d.connected)).map (fun d => d.name) ++ ["Exit".data] ∧
    num_items ds = ((connected_filter ds).length : Int) + 1 ∧
    (menu_items ds).getLast? = some ("Exit".data) := by
  have h1 : connected_filter ds = ds.filter (fun d => d.connected) := by
    simpa using foldl_filter_app ds []
  have h2 : menuNames ds = (ds.filter (fun d => d.connected)).map (fun d => d.name) := by
    simpa using foldl_names_app ds []
  have h3 : connected_count ds = ((ds.filter (fun d => d.connected)).length : Int) := by
    simpa using foldl_count_app ds 0
  refine ⟨h1, by rw [h1], by rw [menu_items, h2], ?_, ?_⟩
  · rw [num_items, h3, h1]
  · rw [menu_items]
    exact List.getLast?_concat _

/-! ## C4 -/

theorem fgetsChunks_short (l : List Char) (h : l.length ≤ 254) :
    fgetsChunks l = [l ++ ['\n']] := by
  have h1 : (l ++ ['\n']).length ≤ 255 := by simp; omega
  have h2 : ¬(l ++ ['\n']) = [] := by simp
  rw [fgetsChunks]
  simp only [chunksAux]
  rw [if_pos h1, if_neg h2]

/-- C4 amended: line-at-a-time delivery and delivery through the 256-byte
`fgets` buffer agree exactly when every logical line is at most 254
characters long (so that the line plus its newline fits in one `fgets`
call); `c4_long_line_counterexample` shows a 257-character line breaking
the equality. -/
theorem c4_short_lines_agree (lines : List (List Char))
    (h : ∀ l ∈ lines, l.length ≤ 254) :
    parseChunked lines = parseLogical lines := by
  have key : (lines.map fgetsChunks).flatten = lines.map (fun l => l ++ ['\n']) := by
    induction lines with
    | nil => simp
    | cons x xs ih =>
      rw [List.map_cons, List.map_cons, List.flatten_cons,
        fgetsChunks_short x (h x (by simp))]
      simp [ih (fun l hl => h l (by simp [hl]))]
  rw [parseChunked, parseLogical, toChunks, key]

/-- Concrete check of `c4_short_lines_agree` on the §8 scenario report
(all lines well under 254 characters). -/
theorem c4_short_lines_agree_check :
    (∀ l ∈ scenarioReport, l.length ≤ 254) ∧
    parseChunked scenarioReport = parseLogical scenarioReport :=
  ⟨by decide, c4_short_lines_agree scenarioReport (by decide)⟩

/-- The report used to refute C4: its middle line is 257 characters long,
so `fgets` delivers it as a 255-byte chunk ending in the middle of the
token `59.94` plus a chunk `94\n`; the second chunk does not start with
whitespace, which closes the open display, loses the following mode line,
and truncates the rate 59.94 to 59. -/
def c4report : List (List Char) :=
  ["HDMI-1 connected".data,
   "   1920x1080 60.00".data ++ List.replicate 234 ' ' ++ "59.94".data,
   "   640x480 60.00".data]

/-- C4 counterexample: the parse is not invariant under how lines are
delivered — through the 256-byte buffer the report above yields one mode
(with rates 60 and 59), while the same logical lines delivered whole yield
two modes (rates 60 and 59.94, then 60). -/
theorem c4_long_line_counterexample :
    (parseChunked c4report).map (fun d => d.modes.length) = [1] ∧
    (parseLogical c4report).map (fun d => d.modes.length) = [2] ∧
    parseChunked c4report ≠ parseLogical c4report := by
  decide

/-! ## C9 -/

theorem round100_eq (q : Rat) : round100 q = round (q * 100) := by
  have hdpos : (0 : ℤ) < (q.den : ℤ) := Int.natCast_pos.mpr q.pos
  have hden : (q.den : ℚ) ≠ 0 := by
    exact_mod_cast Nat.pos_iff_ne_zero.mp q.pos
  have hq : (q.num : ℚ) = q * (q.den : ℚ) := by
    exact (div_eq_iff hden).mp (Rat.num_div_den q)
  have h1 : q * 100 + 1 / 2 =
      ((200 * q.num + (q.den : ℤ) : ℤ) : ℚ) / ((2 * q.den : ℕ) : ℚ) := by
    field_simp
    push_cast [hq]
    ring
  rw [round_eq, h1, Rat.floor_intCast_div_natCast, round100]
  rw [Int.fdiv_eq_ediv _ (by positivity)]
  push_cast
  ring_nf

/-- C9: the set-mode/rate command is exactly
`xrandr --output <name> --mode <w>x<h> --rate <rate>` with the rate
printed by `%.2f`, i.e. with exactly two (decimal-digit) characters after
the decimal point; the hypothesis is that the formatted command fits the
256-byte `snprintf` buffer (`snprintf` truncates otherwise). -/
theorem c9_set_mode_command (name : List Char) (width height : Int) (rate : Rat)
    (h : ("xrandr --output ".data ++ name ++ " --mode ".data ++ (toString width).data ++
          ['x'] ++ (toString height).data ++ " --rate ".data ++ fmt2 rate).length ≤ 255) :
    apply_xrandr_settings name width height rate =
      "xrandr --output ".data ++ name ++ " --mode ".data ++ (toString width).data ++
        ['x'] ++ (toString height).data ++ " --rate ".data ++ fmt2 rate ∧
    ∃ s t : List Char, fmt2 rate = s ++ '.' :: t ∧ t.length = 2 ∧
      t.all Char.isDigit = true := by
  constructor
  · rw [apply_xrandr_settings]
    exact List.take_of_length_le h
  · refine ⟨(if round100 rate < 0 then ['-'] else []) ++
      ((round100 rate).natAbs / 100).repr.data,
      twoDigitFrac ((round100 rate).natAbs % 100), ?_, ?_, ?_⟩
    · simp [fmt2, twoDigitFrac, List.append_assoc]
    · simp [twoDigitFrac]
    · have hd : ∀ d : Nat, d < 10 → (Nat.digitChar d).isDigit = true := by decide
      have h1 : (round100 rate).natAbs % 100 / 10 < 10 := by omega
      have h2 : (round100 rate).natAbs % 100 % 10 < 10 := by omega
      simp [twoDigitFrac, hd _ h1, hd _ h2]

/-- Concrete check of `c9_set_mode_command` at
`("HDMI-1", 1920, 1080, 59.94)`. -/
theorem c9_set_mode_command_check :
    ("xrandr --output ".data ++ "HDMI-1".data ++ " --mode ".data ++
        (toString (1920 : Int)).data ++ ['x'] ++ (toString (1080 : Int)).data ++
        " --rate ".data ++ fmt2 (mkRat 5994 100)).length ≤ 255 ∧
    (apply_xrandr_settings ("HDMI-1".data) 1920 1080 (mkRat 5994 100) =
      "xrandr --output ".data ++ "HDMI-1".data ++ " --mode ".data ++
        (toString (1920 : Int)).data ++ ['x'] ++ (toString (1080 : Int)).data ++
        " --rate ".data ++ fmt2 (mkRat 5994 100) ∧
     ∃ s t : List Char, fmt2 (mkRat 5994 100) = s ++ '.' :: t ∧ t.length = 2 ∧
       t.all Char.isDigit = true) :=
  ⟨by decide, c9_set_mode_command ("HDMI-1".data) 1920 1080 (mkRat 5994 100) (by decide)⟩

/-! ## Concrete navigation data -/

/-- A connected display with one mode and one rate. -/
def exA : Display :=
  { name := "HDMI-1".data, connected := true, is_primary := true,
    width := 1920, height := 1080, x_offset := 0, y_offset := 0,
    is_active := true,
    modes := [{ width := 1920, height := 1080,
                refresh_rates := [{ rate := 60, is_current := true, is_preferred := true }] }] }

/-- A second connected display. -/
def exB : Display :=
  { exA with name := "HDMI-2".data, is_primary := false }

/-- A connected display with no modes at all. -/
def exNoModes : Display :=
  { exA with name := "DP-1".data, modes := [] }

/-! ## C3 -/

/-- The connected projection of a parsed report whose single mode line has
no parseable rate token: one display, one mode, zero rates. -/
def c3displays : List Display :=
  connected_filter (parseLogical
    ["DP-1 connected 1920x1080+0+0".data, "   1920x1080   junk".data])

def c3s0 : TuiState := initState c3displays

def c3s1 : TuiState := contStateD (step c3s0 Key.right 24 none)

def c3s2 : TuiState := contStateD (step c3s1 Key.right 24 none)

/-- C3 counterexample: from the initial state of that parse, two `right`
keys reach `RateSelect` even though the selected mode has zero refresh
rates — the transition is guarded by the display's mode count, not by the
selected mode's rate count, so a RateSelect state with an empty rate list
is reachable. -/
theorem c3_zero_rate_rateselect_reachable :
    (c3displays.map (fun d => d.modes.map (fun m => m.refresh_rates))) = [[[]]] ∧
    step c3s0 Key.right 24 none = .cont c3s1 none ∧
    step c3s1 Key.right 24 none = .cont c3s2 none ∧
    c3s2.state = .rateSelect ∧
    activeLen c3s2 = some 0 := by
  decide

/-- C3 amended: the ModeSelect→RateSelect transition (right or enter) is
guarded only by the selected display having at least one mode; when the
display has no modes the key is a no-op, and when it has modes the
transition fires regardless of the selected mode's rate count, so
RateSelect can be entered with an empty rate list. -/
theorem c3_rateselect_guard (s : TuiState) (rows : Int) (rp : Option (List Display))
    (d : Display) (k : Key)
    (hs : s.state = .modeSelect)
    (hd : s.connected_displays[s.monitor_highlight.toNat]? = some d)
    (hk : k = Key.right ∨ k = Key.enter) :
    (0 < d.modes.length →
      step s k rows rp =
        .cont { s with state := .rateSelect, rate_highlight := 0, rate_scroll := 0 } none) ∧
    (d.modes.length = 0 → step s k rows rp = .cont s none) := by
  have hpos : ∀ h : 0 < d.modes.length, (0 : Int) < (d.modes.length : Int) := by
    intro h; exact_mod_cast h
  rcases hk with rfl | rfl <;>
    refine ⟨fun hl => ?_, fun hl => ?_⟩ <;>
    simp [step, hs, hd, hl, hpos, lt_irrefl]

/-- Concrete check of `c3_rateselect_guard` on a one-display state. -/
theorem c3_rateselect_guard_check :
    (0 < exA.modes.length →
      step { initState [exA] with state := .modeSelect } Key.right 24 none =
        .cont { { initState [exA] with state := .modeSelect } with
                state := .rateSelect, rate_highlight := 0, rate_scroll := 0 } none) ∧
    (exA.modes.length = 0 →
      step { initState [exA] with state := .modeSelect } Key.right 24 none =
        .cont { initState [exA] with state := .modeSelect } none) :=
  c3_rateselect_guard { initState [exA] with state := .modeSelect } 24 none exA
    Key.right rfl (by decide) (Or.inl rfl)

/-! ## C6 -/

def c6s0 : TuiState := initState [exA, exB]

def c6s1 : TuiState := contStateD (step c6s0 Key.keyP 24 none)

def c6s2 : TuiState := contStateD (step c6s1 Key.tab 24 none)

def c6s3 : TuiState := contStateD (step c6s2 Key.down 24 none)

def c6s4 : TuiState := contStateD (step c6s3 Key.enter 24 (some [exA, exB]))

/-- C6 counterexample: starting from the initial two-display state, enter
the position panel, Tab to the direction list, move down once, then apply
(Enter).  The apply runs a position command and the resulting state is
MonitorSelect — but `pos_direction_highlight` is still 1, so not every
selection index is 0 after the state-changing command. -/
theorem c6_stale_position_selection :
    step c6s0 Key.keyP 24 none = .cont c6s1 none ∧
    step c6s1 Key.tab 24 none = .cont c6s2 none ∧
    step c6s2 Key.down 24 none = .cont c6s3 none ∧
    step c6s3 Key.enter 24 (some [exA, exB]) =
      .cont c6s4 (some (apply_position_settings exA.name ("left-of".data) exB.name)) ∧
    c6s4.state = .monitorSelect ∧
    c6s4.pos_direction_highlight = 1 := by
  decide

/-- C6 amended: after any state-changing command transition (toggle from
MonitorSelect, mode/rate apply from RateSelect, position apply from
PositionSelect) the resulting state is MonitorSelect with the monitor,
mode and rate selection and scroll indices all 0 and the target list
discarded; the position panel's target/direction selection indices are not
reset by the command (they are reset only when the position panel is next
entered). -/
theorem c6_command_resets (s : TuiState) (k : Key) (rows : Int)
    (rp : Option (List Display)) (s' : TuiState) (c : List Char)
    (h : step s k rows rp = .cont s' (some c)) :
    s'.state = .monitorSelect ∧
    s'.monitor_highlight = 0 ∧ s'.monitor_scroll = 0 ∧
    s'.mode_highlight = 0 ∧ s'.mode_scroll = 0 ∧
    s'.rate_highlight = 0 ∧ s'.rate_scroll = 0 ∧
    s'.position_target_displays = [] ∧
    s'.pos_target_highlight = s.pos_target_highlight ∧
    s'.pos_direction_highlight = s.pos_direction_highlight := by
  cases k <;> simp only [step] at h <;> (repeat' split at h) <;>
    first
      | (simp at h
         done)
      | (rw [StepRes.cont.injEq] at h
         obtain ⟨h1, h2⟩ := h
         subst h1
         simp [afterCommand])

/-- Concrete check of `c6_command_resets` on a toggle command. -/
theorem c6_command_resets_check :
    (afterCommand [exA] (initState [exA])).state = .monitorSelect ∧
    (afterCommand [exA] (initState [exA])).monitor_highlight = 0 ∧
    (afterCommand [exA] (initState [exA])).monitor_scroll = 0 ∧
    (afterCommand [exA] (initState [exA])).mode_highlight = 0 ∧
    (afterCommand [exA] (initState [exA])).mode_scroll = 0 ∧
    (afterCommand [exA] (initState [exA])).rate_highlight = 0 ∧
    (afterCommand [exA] (initState [exA])).rate_scroll = 0 ∧
    (afterCommand [exA] (initState [exA])).position_target_displays = [] ∧
    (afterCommand [exA] (initState [exA])).pos_target_highlight =
      (initState [exA]).pos_target_highlight ∧
    (afterCommand [exA] (initState [exA])).pos_direction_highlight =
      (initState [exA]).pos_direction_highlight :=
  c6_command_resets (initState [exA]) Key.keyO 24 (some [exA])
    (afterCommand [exA] (initState [exA])) (toggle_display_power exA) (by decide)

/-! ## C7 -/

/-- C7: in every panel, moving down from the last index of the active
n-item list wraps to index 0 and moving up from index 0 wraps to index
n - 1 (monitor list including the Exit row, mode list, rate list,
position-target list, direction list), while moving within an empty list
changes nothing. -/
theorem c7_wraparound (s : TuiState) (rows : Int) (rp : Option (List Display)) (n : Int)
    (hn : activeLen s = some n) :
    (0 < n → activeSel s = n - 1 →
      ∃ s', step s Key.down rows rp = .cont s' none ∧ activeSel s' = 0 ∧ s'.state = s.state) ∧
    (0 < n → activeSel s = 0 →
      ∃ s', step s Key.up rows rp = .cont s' none ∧ activeSel s' = n - 1 ∧ s'.state = s.state) ∧
    (n = 0 →
      step s Key.down rows rp = .cont s none ∧ step s Key.up rows rp = .cont s none) := by
  obtain ⟨cd, st, mh, msc, moh, mosc, rh, rsc, pf, pth, pdh, ptd⟩ := s
  cases st
  case monitorSelect =>
    simp only [activeLen] at hn
    rw [Option.some_inj] at hn
    refine ⟨?_, ?_, ?_⟩
    · intro h0 hsel
      simp only [activeSel] at hsel
      simp only [step]
      refine ⟨_, rfl, ?_, rfl⟩
      simp only [activeSel]
      have h1 : mh + 1 = (cd.length : Int) + 1 := by omega
      rw [h1, Int.emod_self]
    · intro h0 hsel
      simp only [activeSel] at hsel
      simp only [step]
      refine ⟨_, rfl, ?_, rfl⟩
      simp only [activeSel]
      rw [if_pos hsel]
      omega
    · intro h0
      have : (0:Int) ≤ (cd.length : Int) := Int.natCast_nonneg _
      omega
  case modeSelect =>
    simp only [activeLen] at hn
    rcases hmem : cd[mh.toNat]? with _ | d <;> rw [hmem] at hn <;> simp at hn
    refine ⟨?_, ?_, ?_⟩
    · intro h0 hsel
      simp only [activeSel] at hsel
      have hpos : (0:Int) < (d.modes.length : Int) := by omega
      simp only [step, hmem, hpos, if_true, gt_iff_lt, if_pos]
      refine ⟨_, rfl, ?_, rfl⟩
      simp only [activeSel]
      have h1 : moh + 1 = (d.modes.length : Int) := by omega
      rw [h1, Int.emod_self]
    · intro h0 hsel
      simp only [activeSel] at hsel
      have hpos : (0:Int) < (d.modes.length : Int) := by omega
      simp only [step, hmem, hpos, if_true, gt_iff_lt, if_pos]
      refine ⟨_, rfl, ?_, rfl⟩
      simp only [activeSel]
      rw [if_pos hsel]
      omega
    · intro h0
      have hz : (d.modes.length : Int) = 0 := by omega
      have hng : ¬ ((d.modes.length : Int) > 0) := by omega
      simp only [step, hmem, hng, if_false, gt_iff_lt, if_neg]
      exact ⟨trivial, trivial⟩
  case rateSelect =>
    simp only [activeLen] at hn
    rcases hmem : cd[mh.toNat]? with _ | d <;> rw [hmem] at hn <;> simp at hn
    rcases hm : d.modes[moh.toNat]? with _ | m <;> rw [hm] at hn <;> simp at hn
    have hlt : moh.toNat < d.modes.length := by
      rcases List.getElem?_eq_some_iff.mp hm with ⟨h, -⟩
      exact h
    have hmodes : (0:Int) < (d.modes.length : Int) := by
      exact_mod_cast Nat.pos_of_ne_zero (by omega)
    refine ⟨?_, ?_, ?_⟩
    · intro h0 hsel
      simp only [activeSel] at hsel
      have hpos : (0:Int) < (m.refresh_rates.length : Int) := by omega
      simp only [step, hmem, hm, hmodes, hpos, gt_iff_lt, if_pos]
      refine ⟨_, rfl, ?_, rfl⟩
      simp only [activeSel]
      have h1 : rh + 1 = (m.refresh_rates.length : Int) := by omega
      rw [h1, Int.emod_self]
    · intro h0 hsel
      simp only [activeSel] at hsel
      have hpos : (0:Int) < (m.refresh_rates.length : Int) := by omega
      simp only [step, hmem, hm, hmodes, hpos, gt_iff_lt, if_pos]
      refine ⟨_, rfl, ?_, rfl⟩
      simp only [activeSel]
      rw [if_pos hsel]
      omega
    · intro h0
      have hng : ¬ ((m.refresh_rates.length : Int) > 0) := by omega
      simp only [step, hmem, hm, hmodes, hng, gt_iff_lt, if_pos, if_neg, if_false]
      exact ⟨trivial, trivial⟩
  case positionSelect =>
    cases pf
    case target =>
      simp only [activeLen] at hn
      rw [Option.some_inj] at hn
      refine ⟨?_, ?_, ?_⟩
      · intro h0 hsel
        simp only [activeSel] at hsel
        have hpos : (0:Int) < (ptd.length : Int) := by omega
        simp only [step, hpos, gt_iff_lt, if_pos]
        refine ⟨_, rfl, ?_, rfl⟩
        simp only [activeSel]
        have h1 : pth + 1 = (ptd.length : Int) := by omega
        rw [h1, Int.emod_self]
      · intro h0 hsel
        simp only [activeSel] at hsel
        have hpos : (0:Int) < (ptd.length : Int) := by omega
        simp only [step, hpos, gt_iff_lt, if_pos]
        refine ⟨_, rfl, ?_, rfl⟩
        simp only [activeSel]
        rw [if_pos hsel]
        omega
      · intro h0
        have hng : ¬ ((ptd.length : Int) > 0) := by omega
        simp only [step, hng, gt_iff_lt, if_neg, if_false]
        exact ⟨trivial, trivial⟩
    case direction =>
      simp only [activeLen] at hn
      rw [Option.some_inj] at hn
      have hc : position_direction_count = 5 := rfl
      refine ⟨?_, ?_, ?_⟩
      · intro h0 hsel
        simp only [activeSel] at hsel
        simp only [step]
        refine ⟨_, rfl, ?_, rfl⟩
        simp only [activeSel]
        rw [hc] at hn
        have h1 : pdh + 1 = position_direction_count := by rw [hc]; omega
        rw [h1, Int.emod_self]
      · intro h0 hsel
        simp only [activeSel] at hsel
        simp only [step]
        refine ⟨_, rfl, ?_, rfl⟩
        simp only [activeSel]
        rw [if_pos hsel, hc]
        omega
      · intro h0
        rw [hc] at hn
        omega

/-- Concrete check of `c7_wraparound`: down-wrap on the two-entry monitor
list, up-wrap on the same list, and the no-op on an empty mode list. -/
theorem c7_wraparound_check :
    (∃ s', step { initState [exA] with monitor_highlight := 1 } Key.down 24 none =
        .cont s' none ∧ activeSel s' = 0 ∧
        s'.state = ({ initState [exA] with monitor_highlight := 1 } : TuiState).state) ∧
    (∃ s', step (initState [exA]) Key.up 24 none = .cont s' none ∧
      activeSel s' = 2 - 1 ∧ s'.state = (initState [exA]).state) ∧
    (step { initState [exNoModes] with state := .modeSelect } Key.down 24 none =
        .cont { initState [exNoModes] with state := .modeSelect } none ∧
     step { initState [exNoModes] with state := .modeSelect } Key.up 24 none =
        .cont { initState [exNoModes] with state := .modeSelect } none) :=
  ⟨(c7_wraparound _ 24 none 2 (by decide)).1 (by decide) (by decide),
   (c7_wraparound _ 24 none 2 (by decide)).2.1 (by decide) (by decide),
   (c7_wraparound _ 24 none 0 (by decide)).2.2 (by decide)⟩

end Myrandr
